import Mathlib

/-!
Verification of the session/query-orchestration core of the loql/clidb
repository (a terminal SQL client over data files).  The development is a
shallow embedding: the Python functions of src/loql/app.py,
src/clidb/database.py and the two lazy_import helpers are translated into
executable Lean definitions, and the spec's claims are settled as theorems
about those definitions.

The embedded analytical engine (duckdb) is an external collaborator: its
answers to a query are modelled by the EngineAnswer type supplied as input,
and its documented statement-level rollback (a raising statement leaves the
catalog untouched) is reflected by the raise case carrying no new state.
Cell values are modelled as strings (Python reaches them through str()).
-/

/-- A tabular result relation: column names plus rows of (stringified) cells. -/
structure RelData where
  columns : List String
  rows : List (List String)
deriving DecidableEq

/-- The in-memory duckdb session state as driven by this code: the named
views and the named tables of the catalog (assoc lists name ↦ relation). -/
structure DuckState where
  views : List (String × RelData)
  tables : List (String × RelData)
deriving DecidableEq

/-- Python exception classes relevant to the code's except-clauses. -/
inductive ExnClass
  | attributeError
  | runtimeError
  | valueError
  | duckdbError
  | keyError
  | importError
  | fileNotFoundError
  | otherExn
deriving DecidableEq

/-- Decidable equality for Except values, used to evaluate the fallible
loaders on concrete inputs. -/
instance exceptDecEq {ε α : Type} [DecidableEq ε] [DecidableEq α] :
    DecidableEq (Except ε α)
  | .ok a, .ok b =>
      if h : a = b then .isTrue (by rw [h]) else .isFalse (by simp [h])
  | .error a, .error b =>
      if h : a = b then .isTrue (by rw [h]) else .isFalse (by simp [h])
  | .ok _, .error _ => .isFalse (by simp)
  | .error _, .ok _ => .isFalse (by simp)

/-- Overwrite-or-append into an assoc list; models re-registering a view
with the same name overwriting in place (duckdb create_view replace). -/
def updateAssoc (name : String) (r : RelData) : List (String × RelData) → List (String × RelData)
  | [] => [(name, r)]
  | (n, r0) :: rest =>
      if n = name then (name, r) :: rest else (n, r0) :: updateAssoc name r rest

/-- rel.create_view(view_name) and con.register(view_name, df): both add a
queryable view named view_name to the session. -/
def createView (name : String) (r : RelData) (s : DuckState) : DuckState :=
  { s with views := updateAssoc name r s.views }

/-- A CREATE TABLE executed inside the engine adds a named table to the
catalog (modelled engine-side effect of a DDL statement). -/
def createTable (name : String) (r : RelData) (s : DuckState) : DuckState :=
  { s with tables := updateAssoc name r s.tables }

/-- Names of the views currently registered in the session. -/
def viewNames (s : DuckState) : List String := s.views.map Prod.fst

/-- Insert a name if absent (the name-level effect of updateAssoc). -/
def insertName (n : String) (l : List String) : List String :=
  if n ∈ l then l else l ++ [n]

/-- Contents of loql's helper view: select view_name as name, 'view' as type
from duckdb_views union select table_name, 'table' from duckdb_tables
(src/loql/app.py set_up_database). -/
def loqlSchemas (s : DuckState) : List (String × String) :=
  s.views.map (fun v => (v.1, "view")) ++ s.tables.map (fun t => (t.1, "table"))

/-- update_metadata (src/loql/app.py) adds a tree leaf for every entry of the
fetched view list except the helper view itself (if view.name != "schemas"). -/
def update_metadata_names (views : List (String × String)) : List (String × String) :=
  views.filter (fun v => v.1 ≠ "schemas")

/-- clidb's catalog read (DatabaseProcess.__get_views): the helper view
there is a copy of duckdb_views alone, and the projection keeps just the
view names — tables are not listed and nothing is excluded. -/
def clidbGetViews (s : DuckState) : List String := s.views.map Prod.fst

/-- An answer of the embedded engine to con.query(q): a result relation
(with the session state after the statement), None for DDL/DML without a
result set (state possibly changed), or a raised error.  A raising
statement rolls back, so the raise case leaves the session state as it was. -/
inductive EngineAnswer
  | rel (r : RelData) (s' : DuckState)
  | noRel (s' : DuckState)
  | raise (c : ExnClass) (msg : String)
deriving DecidableEq

/-- The observable effect of LoQL.execute_query: update the results table,
hand the rows to write_results, refresh metadata after DDL, notify an
error, or let an uncaught exception escape the worker. -/
inductive Effect
  | display (columns : List String) (rows : List (List String))
  | exportRows (columns : List String) (rows : List (List String))
  | ddlRefresh
  | errorNotify (msg : String)
  | uncaughtExn (c : ExnClass) (msg : String)
deriving DecidableEq

/-- LoQL.execute_query (src/loql/app.py lines 237-263): on a result
relation, apply limit(config.max_rows) unless save, then either
write_results (save) or update_results; a None relation refreshes metadata;
the except clause catches AttributeError, RuntimeError, ValueError and
duckdb.Error and notifies str(query_error) unmodified. -/
def loqlExecuteQueryStep (maxRows : Nat) (save : Bool) (ans : EngineAnswer)
    (s : DuckState) : Effect × DuckState :=
  match ans with
  | .raise c m =>
      if c = .attributeError ∨ c = .runtimeError ∨ c = .valueError ∨ c = .duckdbError then
        (.errorNotify m, s)
      else
        (.uncaughtExn c m, s)
  | .noRel s' => (.ddlRefresh, s')
  | .rel r s' =>
      if save then (.exportRows r.columns r.rows, s')
      else (.display r.columns (r.rows.take maxRows), s')

/-- LoQL.update_results (src/loql/app.py lines 155-163) warns that the
result was limited exactly when the displayed row count equals
config.max_rows. -/
def update_results_warning (maxRows : Nat) (rows : List (List String)) : Bool :=
  rows.length == maxRows

/-- Does a field need quoting under the csv module's excel dialect
(QUOTE_MINIMAL): it contains the delimiter, the quote char, or a newline. -/
def needsQuote (s : String) : Bool :=
  s.toList.any (fun c => c = ',' ∨ c = '"' ∨ c = '\n' ∨ c = '\r')

/-- Double every quote character, per csv quoting rules. -/
def escapeQuotes : List Char → List Char
  | [] => []
  | c :: rest => if c = '"' then '"' :: '"' :: escapeQuotes rest else c :: escapeQuotes rest

/-- One csv field as written by csv.writer (excel dialect, QUOTE_MINIMAL). -/
def csvField (s : String) : String :=
  if needsQuote s then "\"" ++ String.mk (escapeQuotes s.toList) ++ "\"" else s

/-- Comma-join of encoded fields. -/
def joinComma : List String → String
  | [] => ""
  | [x] => x
  | x :: rest => x ++ "," ++ joinComma rest

/-- One csv record: fields joined by the delimiter, terminated by the
writer's default lineterminator, which is CRLF. -/
def csvRecord (row : List String) : String :=
  joinComma (row.map csvField) ++ "\r\n"

/-- LoQL.write_results (src/loql/app.py lines 265-275): the byte content of
results.csv is writer.writerow(columns) followed by writer.writerows(rows).
On Linux the text layer maps each LF to itself, so the csv module's CRLF
terminators reach the file unchanged. -/
def writeResultsContent (columns : List String) (rows : List (List String)) : String :=
  csvRecord columns ++ String.join (rows.map csvRecord)

/-- Universal-newline normalization (what a text-mode read applies when the
repository's test compares the file against an LF-only string). -/
def normalizeCRLF : List Char → List Char
  | [] => []
  | [c] => [c]
  | c1 :: c2 :: rest =>
      if c1 = '\r' ∧ c2 = '\n' then '\n' :: normalizeCRLF rest
      else c1 :: normalizeCRLF (c2 :: rest)

/-- Split a character list at the LAST occurrence of sep into
(before, after); none when sep does not occur. -/
def splitLast (sep : Char) : List Char → Option (List Char × List Char)
  | [] => none
  | c :: rest =>
      match splitLast sep rest with
      | some (b, a) => some (c :: b, a)
      | none => if c = sep then some ([], rest) else none

/-- Characters of the final path component (after the last slash). -/
def baseNameChars (cs : List Char) : List Char :=
  match splitLast '/' cs with
  | some (_, a) => a
  | none => cs

/-- pathlib PurePath.stem: the final component without its suffix; the
suffix exists only when the last dot is neither the first nor the last
character of the name. -/
def pathStem (p : String) : String :=
  let name := baseNameChars p.toList
  match splitLast '.' name with
  | some (before, after) =>
      if before ≠ [] ∧ after ≠ [] then String.mk before else String.mk name
  | none => String.mk name

/-- pathlib PurePath.suffix under the same condition as pathStem. -/
def pathSuffix (p : String) : String :=
  let name := baseNameChars p.toList
  match splitLast '.' name with
  | some (before, after) =>
      if before ≠ [] ∧ after ≠ [] then String.mk ('.' :: after) else ""
  | none => ""

/-- os.path.basename of os.path.splitext's root, the clidb view name: the
extension is split off only when some character of the name before the last
dot is not itself a dot. -/
def osStemName (p : String) : String :=
  let name := baseNameChars p.toList
  match splitLast '.' name with
  | some (before, _) =>
      if before.any (fun c => c ≠ '.') then String.mk before
      else String.mk name
  | none => String.mk name

/-- os.path.splitext's extension under the same condition as osStemName. -/
def osSuffixName (p : String) : String :=
  let name := baseNameChars p.toList
  match splitLast '.' name with
  | some (before, after) =>
      if before.any (fun c => c ≠ '.') then String.mk ('.' :: after) else ""
  | none => ""

/-- str.lower restricted to ASCII, which is what the view names here use. -/
def toLowerStr (s : String) : String := String.mk (s.toList.map Char.toLower)

/-- str.endswith. -/
def strEndsWith (s suffixStr : String) : Bool :=
  decide (suffixStr.toList = s.toList.drop (s.toList.length - suffixStr.toList.length))

/-- str.startswith. -/
def strStartsWith (s prefixStr : String) : Bool :=
  decide (prefixStr.toList = s.toList.take prefixStr.toList.length)

/-- view_name[: -len(".parquet")] and its loql twin: drop the last n chars. -/
def dropRightStr (s : String) (n : Nat) : String :=
  String.mk (s.toList.take (s.toList.length - n))

/-- loql's lazy_import (src/loql/__init__.py lines 29-46): when
importlib.util.find_spec finds no spec it raises
ImportError("Module NAME not found") — at the moment of the call, which for
pd = lazy_import("pandas") is import time of loql.app. -/
def loql_lazy_import (name : String) (available : Bool) : Except String Unit :=
  if available then .ok () else .error ("Module " ++ name ++ " not found")

/-- clidb's lazy_import (src/clidb/__init__.py lines 13-30): returns None
when the module is unavailable instead of raising. -/
def clidb_lazy_import (available : Bool) : Option Unit :=
  if available then some () else none

/-- LoQL.__load_file_with_pandas (src/loql/app.py lines 277-290) and its
identical clidb twin: raise ImportError when pandas is falsy, then index a
dispatch dict keyed by extension — an unrecognized extension raises
KeyError.  The parsed file content stands in for the pandas read result. -/
def loadFileWithPandas (pdAvailable : Bool) (fileType viewName : String)
    (content : Except ExnClass RelData) (s : DuckState) :
    Except ExnClass (DuckState × String) :=
  if ¬pdAvailable then .error .importError
  else if fileType = ".parquet" ∨ fileType = ".json" ∨ fileType = ".jsonl" ∨
          fileType = ".xls" ∨ fileType = ".xlsx" then
    match content with
    | .ok r => .ok (createView viewName r s, viewName)
    | .error e => .error e
  else .error .keyError

/-- LoQL.open_file (src/loql/app.py lines 197-214): pathlib stem lower-cased,
the ".parquet.gz" double extension collapsed, then dispatch on the resolved
extension; no try/except surrounds any branch.  content is the engine's or
pandas' parse of the file (ok data, or the exception class the read raises). -/
def loqlOpenFile (pdAvailable : Bool) (path : String)
    (content : Except ExnClass RelData) (s : DuckState) :
    Except ExnClass (DuckState × String) :=
  let ft0 := pathSuffix path
  let vn0 := toLowerStr (pathStem path)
  let ftvn :=
    if ft0 = ".gz" ∧ strEndsWith vn0 ".parquet" = true then
      (".parquet", dropRightStr vn0 8)
    else (ft0, vn0)
  if ftvn.1 = ".csv" then
    match content with
    | .ok r => .ok (createView ftvn.2 r s, ftvn.2)
    | .error e => .error e
  else if ftvn.1 = ".parquet" ∧ strStartsWith path "s3://" = false then
    match content with
    | .ok r => .ok (createView ftvn.2 r s, ftvn.2)
    | .error e => .error e
  else loadFileWithPandas pdAvailable ftvn.1 ftvn.2 content s

/-- DatabaseProcess.__load_file_as_view (src/clidb/database.py lines
121-137): like loqlOpenFile but the view name is os.path.basename of the
splitext root, with no lower-casing. -/
def clidbLoadFileAsView (pdAvailable : Bool) (path : String)
    (content : Except ExnClass RelData) (s : DuckState) :
    Except ExnClass (DuckState × String) :=
  let ft0 := osSuffixName path
  let vn0 := osStemName path
  let ftvn :=
    if ft0 = ".gz" ∧ strEndsWith vn0 ".parquet" = true then
      (".parquet", dropRightStr vn0 8)
    else (ft0, vn0)
  if ftvn.1 = ".csv" then
    match content with
    | .ok r => .ok (createView ftvn.2 r s, ftvn.2)
    | .error e => .error e
  else if ftvn.1 = ".parquet" ∧ strStartsWith path "s3://" = false then
    match content with
    | .ok r => .ok (createView ftvn.2 r s, ftvn.2)
    | .error e => .error e
  else loadFileWithPandas pdAvailable ftvn.1 ftvn.2 content s

/-- A value placed on clidb's result queue as the first component: None for
an empty request, a plain string (the empty result or a loaded view's
name), a centered QueryError text, or the rendered result table. -/
inductive RespC
  | noneResp
  | str (s : String)
  | queryError (msg : String)
  | table (columns : List String) (rows : List (List String))
deriving DecidableEq

/-- DatabaseProcess.__format_cell: str(value)[:MAX_CELL_LENGTH]. -/
def formatCell (v : String) : String := String.mk (v.toList.take 100)

/-- DatabaseProcess.__query (src/clidb/database.py lines 151-180): limit the
relation to MAX_RESULT_ROWS = 100 rows, render a table of formatted cells;
None for a None relation; except (AttributeError, RuntimeError) returns
QueryError(str(query_error)); any other exception class escapes. -/
def clidbQueryFn (ans : EngineAnswer) (s : DuckState) :
    Except ExnClass (RespC × DuckState) :=
  match ans with
  | .rel r s' =>
      .ok (.table r.columns ((r.rows.take 100).map (fun row => row.map formatCell)), s')
  | .noRel s' => .ok (.noneResp, s')
  | .raise c m =>
      if c = .attributeError ∨ c = .runtimeError then .ok (.queryError m, s)
      else .error c

/-- The file-load arm of DatabaseProcess.__await_query (src/clidb/database.py
lines 91-97): __load_file_as_view in a try that maps (FileNotFoundError,
KeyError, RuntimeError) to "Failed to load NAME." and ImportError to
"Please install clidb[extras]."; other classes escape. -/
def clidbProcessFileObj (pdAvailable : Bool) (path : String)
    (content : Except ExnClass RelData) (s : DuckState) :
    Except ExnClass (RespC × DuckState) :=
  match clidbLoadFileAsView pdAvailable path content s with
  | .ok (s', vn) => .ok (.str vn, s')
  | .error e =>
      if e = .fileNotFoundError ∨ e = .keyError ∨ e = .runtimeError then
        .ok (.queryError ("Failed to load " ++ path ++ "."), s)
      else if e = .importError then
        .ok (.queryError "Please install clidb[extras].", s)
      else .error e

/-- A request dequeued by the worker: the shutdown sentinel, None, a query
string, or a FileObj. -/
inductive Request
  | sentinel
  | noneReq
  | queryStr (q : String)
  | fileObj (filename : String)
deriving DecidableEq

/-- Is the request the shutdown sentinel. -/
def isSentinel : Request → Bool
  | .sentinel => true
  | _ => false

/-- The outcome of serving one dequeued request: the response put on the
result queue, the session state afterwards, and whether __query (hence
con.query) was invoked. -/
structure StepOut where
  result : RespC
  state : DuckState
  engineQueried : Bool
deriving DecidableEq

/-- The body of DatabaseProcess.__await_query for one non-sentinel request:
None yields the empty string with no engine call, a string goes to __query,
a FileObj goes through the load arm.  engine gives the collaborator's
answer to each query string, contentOf each file's parse. -/
def processRequest (pdAvailable : Bool)
    (engine : DuckState → String → EngineAnswer)
    (contentOf : String → Except ExnClass RelData)
    (s : DuckState) : Request → Except ExnClass StepOut
  | .sentinel => .ok ⟨.noneResp, s, false⟩
  | .noneReq => .ok ⟨.str "", s, false⟩
  | .queryStr q =>
      match clidbQueryFn (engine s q) s with
      | .ok (res, s') => .ok ⟨res, s', true⟩
      | .error e => .error e
  | .fileObj f =>
      match clidbProcessFileObj pdAvailable f (contentOf f) s with
      | .ok (res, s') => .ok ⟨res, s', false⟩
      | .error e => .error e

/-- DatabaseProcess.__await_query (src/clidb/database.py lines 80-100): loop
over the request queue until the sentinel; after performing each request,
recompute the view list from the now-current state and put exactly one
(result, views) pair on the result queue.  An exception class no except
clause covers kills the worker coroutine: no response, no further serving. -/
def awaitQueryLoop (pdAvailable : Bool)
    (engine : DuckState → String → EngineAnswer)
    (contentOf : String → Except ExnClass RelData)
    (s : DuckState) : List Request → List (RespC × List String)
  | [] => []
  | req :: rest =>
      if isSentinel req then []
      else
        match processRequest pdAvailable engine contentOf s req with
        | .error _ => []
        | .ok out =>
            (out.result, clidbGetViews out.state) ::
              awaitQueryLoop pdAvailable engine contentOf out.state rest

/-- The session state after the worker has served a list of requests
(stopping at the sentinel or at an uncaught exception). -/
def serveState (pdAvailable : Bool)
    (engine : DuckState → String → EngineAnswer)
    (contentOf : String → Except ExnClass RelData)
    (s : DuckState) : List Request → DuckState
  | [] => s
  | req :: rest =>
      if isSentinel req then s
      else
        match processRequest pdAvailable engine contentOf s req with
        | .error _ => s
        | .ok out => serveState pdAvailable engine contentOf out.state rest

/-- Whether every request up to the sentinel is served without an uncaught
exception. -/
def serveOk (pdAvailable : Bool)
    (engine : DuckState → String → EngineAnswer)
    (contentOf : String → Except ExnClass RelData)
    (s : DuckState) : List Request → Bool
  | [] => true
  | req :: rest =>
      if isSentinel req then true
      else
        match processRequest pdAvailable engine contentOf s req with
        | .error _ => false
        | .ok out => serveOk pdAvailable engine contentOf out.state rest

/-- How many requests precede the first sentinel. -/
def requestsServed : List Request → Nat
  | [] => 0
  | req :: rest => if isSentinel req then 0 else requestsServed rest + 1

/-- The engineQueried flag of a step, false if the step died. -/
def stepEngineQueried : Except ExnClass StepOut → Bool
  | .ok o => o.engineQueried
  | .error _ => false

/-- LoQL.action_execute_query (src/loql/app.py lines 133-143): the dispatched
query text is the selection when non-empty, else the whole editor body; the
method then unconditionally calls execute_query with it, so some query is
always dispatched. -/
def action_execute_query_dispatch (selectedText text : String) : Option String :=
  some (if selectedText ≠ "" then selectedText else text)

/-- Events the clidb DatabaseController emits or posts while handling one
OpenFile message. -/
inductive CtrlEvent
  | updateTextInput (text : String)
  | queryResultEv (resp : RespC)
  | querySubmit (q : String)
  | viewsUpdate (views : List String)
deriving DecidableEq

/-- Is the event the trailing catalog update. -/
def isViewsUpdate : CtrlEvent → Bool
  | .viewsUpdate _ => true
  | _ => false

/-- The view name the controller reads off a non-error load response. -/
def respViewName : RespC → String
  | .str n => n
  | _ => ""

/-- DatabaseController.handle_open_file (src/clidb/database.py lines
213-231): enqueue the FileObj, await (load_response, views); a QueryError
is emitted as the result, otherwise the response is the view name and the
controller updates the text input to select * from "name" and posts that
same Query to itself (which handle_query submits to the session); finally a
non-empty view list is emitted as a views update. -/
def handle_open_file (loadResponse : RespC) (views : List String) : List CtrlEvent :=
  (match loadResponse with
   | .queryError m => [.queryResultEv (.queryError m)]
   | resp =>
       let q := "select * from \"" ++ respViewName resp ++ "\""
       [.updateTextInput q, .querySubmit q]) ++
  (if views = [] then [] else [.viewsUpdate views])

/-- Sample relation: the parse of data.csv from the spec's scenario A. -/
def scenarioRel : RelData := ⟨["a","b","c"], [["1","2","3"],["4","5","6"]]⟩

/-- Session state right after set_up_database: only the helper view exists. -/
def initState : DuckState := ⟨[("schemas", ⟨[],[]⟩)], []⟩

/-- Whether a load returned normally (as opposed to raising). -/
def exceptIsOk : Except ExnClass (DuckState × String) → Bool
  | .ok _ => true
  | .error _ => false

theorem updateAssoc_names (n : String) (r : RelData) :
    ∀ l : List (String × RelData),
      (updateAssoc n r l).map Prod.fst = insertName n (l.map Prod.fst)
  | [] => by simp [updateAssoc, insertName]
  | (a, b) :: t => by
      by_cases h : a = n
      · subst h
        simp [updateAssoc, insertName]
      · have ih := updateAssoc_names n r t
        have hna : ¬n = a := fun e => h e.symm
        simp only [updateAssoc, if_neg h, List.map_cons, ih, insertName, List.mem_cons]
        by_cases hm : n ∈ t.map Prod.fst
        · simp [hm, hna]
        · simp [hm, hna]

theorem mem_insertName (n : String) (l : List String) : n ∈ insertName n l := by
  unfold insertName
  split
  · assumption
  · simp

theorem mem_updateAssoc (n : String) (r : RelData) :
    ∀ l : List (String × RelData), (n, r) ∈ updateAssoc n r l
  | [] => by simp [updateAssoc]
  | (a, b) :: t => by
      simp only [updateAssoc]
      split
      · exact List.mem_cons_self _ _
      · exact List.mem_cons_of_mem _ (mem_updateAssoc n r t)

/-- C3: a non-save query on a relation with more rows than the limit
displays exactly maxRows rows (limit applied before fetchall), and
update_results fires its truncation warning exactly because the displayed
count equals config.max_rows; with save set, no limit is applied and
write_results receives every row. -/
theorem c3_row_limit (maxRows : Nat) (r : RelData) (s sAfter : DuckState) :
    (maxRows < r.rows.length →
        loqlExecuteQueryStep maxRows false (.rel r sAfter) s =
          (.display r.columns (r.rows.take maxRows), sAfter)
      ∧ (r.rows.take maxRows).length = maxRows
      ∧ update_results_warning maxRows (r.rows.take maxRows) = true)
  ∧ loqlExecuteQueryStep maxRows true (.rel r sAfter) s =
      (.exportRows r.columns r.rows, sAfter) := by
  constructor
  · intro h
    refine ⟨rfl, ?_, ?_⟩
    · simp [List.length_take, Nat.min_eq_left h.le]
    · simp [update_results_warning, List.length_take, Nat.min_eq_left h.le]
  · rfl

/-- Witness for c3_row_limit at maxRows 1 and a two-row relation. -/
theorem c3_row_limit_witness :
    (loqlExecuteQueryStep 1 false (.rel ⟨["a"], [["1"],["2"]]⟩ initState) initState =
        (.display ["a"] ([["1"],["2"]].take 1), initState)
      ∧ ([["1"],["2"]].take 1).length = 1
      ∧ update_results_warning 1 ([["1"],["2"]].take 1) = true)
    ∧ loqlExecuteQueryStep 1 true (.rel ⟨["a"], [["1"],["2"]]⟩ initState) initState =
        (.exportRows ["a"] [["1"],["2"]], initState) :=
  ⟨(c3_row_limit 1 ⟨["a"], [["1"],["2"]]⟩ initState initState).1 (by decide),
   (c3_row_limit 1 ⟨["a"], [["1"],["2"]]⟩ initState initState).2⟩

/-- C4: when the engine raises during execution (duckdb.Error in the loql
variant, RuntimeError in the clidb-era engine), the executor catches it and
reports str(query_error) unchanged, and the session state — hence every
later catalog read — is exactly the pre-query state. -/
theorem c4_engine_error_caught (maxRows : Nat) (save : Bool) (m : String) (s : DuckState) :
    loqlExecuteQueryStep maxRows save (.raise .duckdbError m) s = (.errorNotify m, s)
  ∧ clidbQueryFn (.raise .runtimeError m) s = .ok (.queryError m, s) := by
  constructor <;> rfl

/-- C5 counterexample: with data.csv loaded and the result exported, the
export file's byte content is not the LF-terminated string the claim
specifies — csv.writer's default lineterminator is CRLF. -/
theorem c5_counterexample :
    loqlOpenFile true "data.csv" (.ok scenarioRel) initState =
      .ok (createView "data" scenarioRel initState, "data")
  ∧ loqlExecuteQueryStep 1000 true
      (.rel scenarioRel (createView "data" scenarioRel initState))
      (createView "data" scenarioRel initState) =
      (.exportRows ["a","b","c"] [["1","2","3"],["4","5","6"]],
        createView "data" scenarioRel initState)
  ∧ writeResultsContent ["a","b","c"] [["1","2","3"],["4","5","6"]] ≠
      "a,b,c\n1,2,3\n4,5,6\n" :=
  ⟨by decide, by decide, by decide⟩

/-- C5 amended: the exported bytes are CRLF-terminated records (header then
one record per row); after universal-newline normalization — what the
repository's own test applies when reading the file back — the content
equals the claimed LF string. -/
theorem c5_export_bytes :
    writeResultsContent ["a","b","c"] [["1","2","3"],["4","5","6"]] =
      "a,b,c\r\n1,2,3\r\n4,5,6\r\n"
  ∧ String.mk (normalizeCRLF
      (writeResultsContent ["a","b","c"] [["1","2","3"],["4","5","6"]]).toList) =
      "a,b,c\n1,2,3\n4,5,6\n" :=
  ⟨by decide, by decide⟩

/-- C6: with pandas unavailable, clidb degrades a pandas-needing load to the
classified instruction "Please install clidb[extras]." and keeps serving,
but loql's lazy_import raises ImportError("Module pandas not found") at the
moment of the call — which is import time of loql.app — so the process
crashes before any operation can be classified. -/
theorem c6_missing_dependency :
    loql_lazy_import "pandas" false = .error "Module pandas not found"
  ∧ clidb_lazy_import false = none
  ∧ clidbProcessFileObj false "data.json" (.ok scenarioRel) initState =
      .ok (.queryError "Please install clidb[extras].", initState) :=
  ⟨by decide, by decide, by decide⟩

/-- C7 counterexample: in the current variant a .txt load attempt does not
produce a classified error at all — the dispatch-dict KeyError escapes
open_file uncaught (there is no try/except in the loql loader). -/
theorem c7_counterexample :
    loqlOpenFile true "data.txt" (.ok scenarioRel) initState = .error .keyError
  ∧ exceptIsOk (loqlOpenFile true "data.txt" (.ok scenarioRel) initState) = false :=
  ⟨by decide, by decide⟩

/-- C7 amended: the separate-process variant catches the KeyError at the
worker boundary and reports the classified message "Failed to load
data.txt." with the session state (hence the catalog) unchanged, while the
current variant lets the KeyError escape the File Loader. -/
theorem c7_unsupported_extension (s : DuckState) (r : RelData) :
    clidbProcessFileObj true "data.txt" (.ok r) s =
      .ok (.queryError "Failed to load data.txt.", s)
  ∧ loqlOpenFile true "data.txt" (.ok r) s = .error .keyError := by
  constructor <;> rfl

/-- C10: on a successful load the controller sets the query input to
select * from "name" and posts that exact Query message (which handle_query
submits to the session); on an error response the only emission besides the
trailing catalog update is the error itself — no text update, no query. -/
theorem c10_open_file_controller (n m : String) (views : List String) :
    handle_open_file (.str n) views =
      [.updateTextInput ("select * from \"" ++ n ++ "\""),
       .querySubmit ("select * from \"" ++ n ++ "\"")] ++
        (if views = [] then [] else [.viewsUpdate views])
  ∧ (handle_open_file (.queryError m) views).filter (fun e => !isViewsUpdate e) =
      [.queryResultEv (.queryError m)] := by
  constructor
  · rfl
  · cases views <;> simp [handle_open_file, isViewsUpdate]

/-- C1 counterexample: the separate-process File Loader registers the view
for Data.csv under the name "Data" — the stem as-is — not the lower-cased
stem "data" the claim specifies. -/
theorem c1_counterexample :
    clidbLoadFileAsView true "Data.csv" (.ok scenarioRel) initState =
      .ok (createView "Data" scenarioRel initState, "Data")
  ∧ toLowerStr (pathStem "Data.csv") = "data"
  ∧ ("Data" : String) ≠ "data" :=
  ⟨by decide, by decide, by decide⟩

/-- C1 amended: for every recognized extension — .csv, .parquet (local or
remote), .json, .jsonl, .xls, .xlsx — the current loader registers the view
under the lower-cased pathlib stem and the separate-process loader under
the os.path stem without lower-casing; both collapse the ".parquet.gz"
double extension, in clidb only when the ".parquet" in the stem is spelled
in lowercase — otherwise (and in loql when the lower-cased stem does not
end in ".parquet") the unresolved ".gz" reaches the pandas dispatch dict
and raises KeyError, so no view is registered at all; and registering a
name puts exactly one view of that name in the session, which the catalog
read subsequently includes.  pandas is taken as available: in loql a
missing pandas aborts at import (see c6_missing_dependency), and in clidb
it turns the pandas-routed loads into classified failures, so no view is
loaded at all on those paths. -/
theorem c1_view_naming :
    (∀ (path : String) (r : RelData) (s : DuckState),
        (pathSuffix path = ".csv" ∨ pathSuffix path = ".parquet" ∨
         pathSuffix path = ".json" ∨ pathSuffix path = ".jsonl" ∨
         pathSuffix path = ".xls" ∨ pathSuffix path = ".xlsx") →
          loqlOpenFile true path (.ok r) s =
            .ok (createView (toLowerStr (pathStem path)) r s, toLowerStr (pathStem path)))
  ∧ (∀ (path : String) (r : RelData) (s : DuckState),
        (osSuffixName path = ".csv" ∨ osSuffixName path = ".parquet" ∨
         osSuffixName path = ".json" ∨ osSuffixName path = ".jsonl" ∨
         osSuffixName path = ".xls" ∨ osSuffixName path = ".xlsx") →
          clidbLoadFileAsView true path (.ok r) s =
            .ok (createView (osStemName path) r s, osStemName path))
  ∧ (∀ (path : String) (r : RelData) (s : DuckState),
        pathSuffix path = ".gz" →
        strEndsWith (toLowerStr (pathStem path)) ".parquet" = true →
        strStartsWith path "s3://" = false →
          loqlOpenFile true path (.ok r) s =
            .ok (createView (dropRightStr (toLowerStr (pathStem path)) 8) r s,
              dropRightStr (toLowerStr (pathStem path)) 8))
  ∧ (∀ (path : String) (r : RelData) (s : DuckState),
        osSuffixName path = ".gz" →
        strEndsWith (osStemName path) ".parquet" = true →
        strStartsWith path "s3://" = false →
          clidbLoadFileAsView true path (.ok r) s =
            .ok (createView (dropRightStr (osStemName path) 8) r s,
              dropRightStr (osStemName path) 8))
  ∧ (∀ (path : String) (r : RelData) (s : DuckState),
        pathSuffix path = ".gz" →
        strEndsWith (toLowerStr (pathStem path)) ".parquet" = false →
          loqlOpenFile true path (.ok r) s = .error .keyError)
  ∧ (∀ (path : String) (r : RelData) (s : DuckState),
        osSuffixName path = ".gz" →
        strEndsWith (osStemName path) ".parquet" = false →
          clidbLoadFileAsView true path (.ok r) s = .error .keyError)
  ∧ (∀ (name : String) (r : RelData) (s : DuckState),
        viewNames (createView name r s) = insertName name (viewNames s)
      ∧ name ∈ viewNames (createView name r s)
      ∧ (name, "view") ∈ loqlSchemas (createView name r s)
      ∧ name ∈ clidbGetViews (createView name r s)) := by
  refine ⟨?_, ?_, ?_, ?_, ?_, ?_, ?_⟩
  · intro path r s h
    rcases h with h | h | h | h | h | h
    · simp [loqlOpenFile, h]
    · cases hS3 : strStartsWith path "s3://" with
      | false => simp [loqlOpenFile, h, hS3]
      | true => simp [loqlOpenFile, h, hS3, loadFileWithPandas]
    · simp [loqlOpenFile, h, loadFileWithPandas]
    · simp [loqlOpenFile, h, loadFileWithPandas]
    · simp [loqlOpenFile, h, loadFileWithPandas]
    · simp [loqlOpenFile, h, loadFileWithPandas]
  · intro path r s h
    rcases h with h | h | h | h | h | h
    · simp [clidbLoadFileAsView, h]
    · cases hS3 : strStartsWith path "s3://" with
      | false => simp [clidbLoadFileAsView, h, hS3]
      | true => simp [clidbLoadFileAsView, h, hS3, loadFileWithPandas]
    · simp [clidbLoadFileAsView, h, loadFileWithPandas]
    · simp [clidbLoadFileAsView, h, loadFileWithPandas]
    · simp [clidbLoadFileAsView, h, loadFileWithPandas]
    · simp [clidbLoadFileAsView, h, loadFileWithPandas]
  · intro path r s h hEnds hS3
    simp [loqlOpenFile, h, hEnds, hS3]
  · intro path r s h hEnds hS3
    simp [clidbLoadFileAsView, h, hEnds, hS3]
  · intro path r s h hEnds
    simp [loqlOpenFile, h, hEnds, loadFileWithPandas]
  · intro path r s h hEnds
    simp [clidbLoadFileAsView, h, hEnds, loadFileWithPandas]
  · intro name r s
    refine ⟨?_, ?_, ?_, ?_⟩
    · simp [viewNames, createView, updateAssoc_names]
    · simp only [viewNames, createView, updateAssoc_names]
      exact mem_insertName name _
    · exact List.mem_append_left _
        (List.mem_map.mpr ⟨(name, r), mem_updateAssoc name r s.views, rfl⟩)
    · simp only [clidbGetViews, createView, updateAssoc_names]
      exact mem_insertName name _

/-- Witness for c1_view_naming: concrete loads for a pandas-routed and a
native extension in each variant, the collapsed ".parquet.gz" double
extension in both, its refused non-lowercase and non-parquet spellings,
and registration of "data". -/
theorem c1_view_naming_witness :
    loqlOpenFile true "data.json" (.ok scenarioRel) initState =
      .ok (createView (toLowerStr (pathStem "data.json")) scenarioRel initState,
        toLowerStr (pathStem "data.json"))
  ∧ clidbLoadFileAsView true "Data.xlsx" (.ok scenarioRel) initState =
      .ok (createView (osStemName "Data.xlsx") scenarioRel initState, osStemName "Data.xlsx")
  ∧ loqlOpenFile true "Data.Parquet.gz" (.ok scenarioRel) initState =
      .ok (createView (dropRightStr (toLowerStr (pathStem "Data.Parquet.gz")) 8)
        scenarioRel initState, dropRightStr (toLowerStr (pathStem "Data.Parquet.gz")) 8)
  ∧ clidbLoadFileAsView true "data.parquet.gz" (.ok scenarioRel) initState =
      .ok (createView (dropRightStr (osStemName "data.parquet.gz") 8) scenarioRel initState,
        dropRightStr (osStemName "data.parquet.gz") 8)
  ∧ loqlOpenFile true "data.csv.gz" (.ok scenarioRel) initState = .error .keyError
  ∧ clidbLoadFileAsView true "data.Parquet.gz" (.ok scenarioRel) initState =
      .error .keyError
  ∧ "data" ∈ viewNames (createView "data" scenarioRel initState) :=
  ⟨c1_view_naming.1 "data.json" scenarioRel initState (by decide),
   c1_view_naming.2.1 "Data.xlsx" scenarioRel initState (by decide),
   c1_view_naming.2.2.1 "Data.Parquet.gz" scenarioRel initState
     (by decide) (by decide) (by decide),
   c1_view_naming.2.2.2.1 "data.parquet.gz" scenarioRel initState
     (by decide) (by decide) (by decide),
   c1_view_naming.2.2.2.2.1 "data.csv.gz" scenarioRel initState (by decide) (by decide),
   c1_view_naming.2.2.2.2.2.1 "data.Parquet.gz" scenarioRel initState
     (by decide) (by decide),
   (c1_view_naming.2.2.2.2.2.2 "data" scenarioRel initState).2.1⟩


/-- Session state with a user view and a user table, for the C2
counterexample. -/
def c2State : DuckState :=
  ⟨[("schemas", ⟨[],[]⟩), ("data1", scenarioRel)], [("data3", scenarioRel)]⟩

/-- C2 counterexample: clidb's catalog read projects view names from a copy
of duckdb_views alone — the table data3 is missing, no kind tags exist, and
the helper view "schemas" is reported rather than excluded, so the read is
not the claimed union-minus-helper. -/
theorem c2_counterexample :
    clidbGetViews c2State = ["schemas", "data1"]
  ∧ ¬ "data3" ∈ clidbGetViews c2State
  ∧ "schemas" ∈ clidbGetViews c2State
  ∧ clidbGetViews c2State ≠ (update_metadata_names (loqlSchemas c2State)).map Prod.fst :=
  ⟨by decide, by decide, by decide, by decide⟩

/-- C2 amended: in the current variant the helper view unions the view and
table directories with literal kind tags, the UI layer excludes the helper
view itself when reporting, and a DDL statement that created a table gives
an Empty outcome whose refresh shows the table with kind "table". -/
theorem c2_catalog_read (maxRows : Nat) (save : Bool) (s : DuckState)
    (t : String) (r : RelData) :
    loqlExecuteQueryStep maxRows save (.noRel (createTable t r s)) s =
      (.ddlRefresh, createTable t r s)
  ∧ (t, "table") ∈ loqlSchemas (createTable t r s)
  ∧ (∀ k, ¬ ("schemas", k) ∈ update_metadata_names (loqlSchemas (createTable t r s)))
  ∧ (t ≠ "schemas" →
      (t, "table") ∈ update_metadata_names (loqlSchemas (createTable t r s))) := by
  refine ⟨rfl, ?_, ?_, ?_⟩
  · exact List.mem_append_right _
      (List.mem_map.mpr ⟨(t, r), mem_updateAssoc t r s.tables, rfl⟩)
  · intro k hk
    simp [update_metadata_names, List.mem_filter] at hk
  · intro ht
    refine List.mem_filter.mpr ⟨?_, by simp [ht]⟩
    exact List.mem_append_right _
      (List.mem_map.mpr ⟨(t, r), mem_updateAssoc t r s.tables, rfl⟩)

/-- Witness for c2_catalog_read at the table data3 of scenario B. -/
theorem c2_catalog_read_witness :
    loqlExecuteQueryStep 1000 false (.noRel (createTable "data3" scenarioRel initState))
      initState = (.ddlRefresh, createTable "data3" scenarioRel initState)
  ∧ ("data3", "table") ∈ loqlSchemas (createTable "data3" scenarioRel initState)
  ∧ ("data3", "table") ∈
      update_metadata_names (loqlSchemas (createTable "data3" scenarioRel initState)) :=
  ⟨(c2_catalog_read 1000 false initState "data3" scenarioRel).1,
   (c2_catalog_read 1000 false initState "data3" scenarioRel).2.1,
   (c2_catalog_read 1000 false initState "data3" scenarioRel).2.2.2 (by decide)⟩

/-- An engine that answers every statement with no result relation. -/
def engineNoop : DuckState → String → EngineAnswer := fun s _ => .noRel s

/-- A file-content oracle that parses every file to the scenario relation. -/
def contentNone : String → Except ExnClass RelData := fun _ => .ok scenarioRel

/-- C9 counterexample: an empty query STRING is dispatched to the engine in
both variants — the older worker's no-engine-call branch fires only for a
None request, and the current action_execute_query dispatches the empty
editor body like any other text. -/
theorem c9_counterexample :
    stepEngineQueried (processRequest true engineNoop contentNone initState (.queryStr "")) =
      true
  ∧ processRequest true engineNoop contentNone initState (.queryStr "") =
      .ok ⟨.noneResp, initState, true⟩
  ∧ action_execute_query_dispatch "" "" = some ""
  ∧ some "" ≠ (none : Option String) :=
  ⟨by decide, by decide, by decide, by decide⟩

/-- C9 amended: a None request (and only that) yields an empty-string result
with no engine call in the older variant; an empty query string is passed
to __query — hence to con.query — whenever it is served, and the current
variant always dispatches the editor body, empty or not. -/
theorem c9_empty_query (pd : Bool) (engine : DuckState → String → EngineAnswer)
    (contentOf : String → Except ExnClass RelData) (s : DuckState) :
    processRequest pd engine contentOf s .noneReq = .ok ⟨.str "", s, false⟩
  ∧ (∀ out, processRequest pd engine contentOf s (.queryStr "") = .ok out →
        out.engineQueried = true)
  ∧ action_execute_query_dispatch "" "" = some "" := by
  refine ⟨rfl, ?_, rfl⟩
  intro out h
  simp only [processRequest] at h
  split at h
  · injection h with h'
    subst h'
    rfl
  · exact absurd h (by simp)

/-- Witness for c9_empty_query at the no-op engine and the initial state. -/
theorem c9_empty_query_witness :
    processRequest true engineNoop contentNone initState .noneReq =
      .ok ⟨.str "", initState, false⟩
  ∧ (⟨.noneResp, initState, true⟩ : StepOut).engineQueried = true
  ∧ action_execute_query_dispatch "" "" = some "" :=
  ⟨(c9_empty_query true engineNoop contentNone initState).1,
   (c9_empty_query true engineNoop contentNone initState).2.1
     ⟨.noneResp, initState, true⟩ (by decide),
   (c9_empty_query true engineNoop contentNone initState).2.2⟩

theorem awaitQueryLoop_cons (pd : Bool) (engine : DuckState → String → EngineAnswer)
    (contentOf : String → Except ExnClass RelData) (s : DuckState)
    (req : Request) (rest : List Request) (out : StepOut)
    (hs : isSentinel req = false)
    (hpr : processRequest pd engine contentOf s req = .ok out) :
    awaitQueryLoop pd engine contentOf s (req :: rest) =
      (out.result, clidbGetViews out.state) ::
        awaitQueryLoop pd engine contentOf out.state rest := by
  simp [awaitQueryLoop, hs, hpr]

theorem serveState_cons (pd : Bool) (engine : DuckState → String → EngineAnswer)
    (contentOf : String → Except ExnClass RelData) (s : DuckState)
    (req : Request) (rest : List Request) (out : StepOut)
    (hs : isSentinel req = false)
    (hpr : processRequest pd engine contentOf s req = .ok out) :
    serveState pd engine contentOf s (req :: rest) =
      serveState pd engine contentOf out.state rest := by
  simp [serveState, hs, hpr]

theorem serveOk_cons (pd : Bool) (engine : DuckState → String → EngineAnswer)
    (contentOf : String → Except ExnClass RelData) (s : DuckState)
    (req : Request) (rest : List Request) (out : StepOut)
    (hs : isSentinel req = false)
    (hpr : processRequest pd engine contentOf s req = .ok out) :
    serveOk pd engine contentOf s (req :: rest) =
      serveOk pd engine contentOf out.state rest := by
  simp [serveOk, hs, hpr]

/-- C8: the worker pairs each dequeued request with exactly one
(result, views) response — when no uncaught exception interrupts it, the
number of responses equals the number of requests before the sentinel —
and the views of the i-th response are recomputed from the session state
reached after serving the first i+1 requests, never from the prior state or
a cache. -/
theorem c8_views_recomputed (pd : Bool) (engine : DuckState → String → EngineAnswer)
    (contentOf : String → Except ExnClass RelData) :
    ∀ (reqs : List Request) (s : DuckState),
      (∀ i, i < (awaitQueryLoop pd engine contentOf s reqs).length →
          ((awaitQueryLoop pd engine contentOf s reqs).getD i (.noneResp, [])).2 =
            clidbGetViews (serveState pd engine contentOf s (reqs.take (i + 1))))
    ∧ (serveOk pd engine contentOf s reqs = true →
        (awaitQueryLoop pd engine contentOf s reqs).length = requestsServed reqs) := by
  intro reqs
  induction reqs with
  | nil =>
      intro s
      constructor
      · intro i h
        simp [awaitQueryLoop] at h
      · intro _
        rfl
  | cons req rest ih =>
      intro s
      by_cases hs : isSentinel req = true
      · constructor
        · intro i h
          simp [awaitQueryLoop, hs] at h
        · intro _
          simp [awaitQueryLoop, requestsServed, hs]
      · rw [Bool.not_eq_true] at hs
        cases hpr : processRequest pd engine contentOf s req with
        | error e =>
            constructor
            · intro i h
              simp [awaitQueryLoop, hs, hpr] at h
            · intro hok
              rw [serveOk, if_neg (by simp [hs]), hpr] at hok
              exact absurd hok (by simp)
        | ok out =>
            constructor
            · intro i h
              rw [awaitQueryLoop_cons pd engine contentOf s req rest out hs hpr] at h ⊢
              match i with
              | 0 =>
                  rw [List.getD_cons_zero, List.take_succ_cons,
                    serveState_cons pd engine contentOf s req (rest.take 0) out hs hpr]
                  simp [serveState]
              | Nat.succ j =>
                  rw [List.getD_cons_succ, List.take_succ_cons,
                    serveState_cons pd engine contentOf s req (rest.take (j + 1)) out hs hpr]
                  exact (ih out.state).1 j (Nat.lt_of_succ_lt_succ h)
            · intro hok
              rw [serveOk_cons pd engine contentOf s req rest out hs hpr] at hok
              rw [awaitQueryLoop_cons pd engine contentOf s req rest out hs hpr]
              simp only [List.length_cons, requestsServed, hs, if_neg]
              rw [(ih out.state).2 hok]
              simp

/-- Witness for c8_views_recomputed: a file load followed by a query, then
the sentinel; the second response's views are those of the state after the
load, and both requests get exactly one response each. -/
theorem c8_views_recomputed_witness :
    ((awaitQueryLoop true engineNoop contentNone initState
        [.fileObj "data.csv", .queryStr "select 1", .sentinel]).getD 1 (.noneResp, [])).2 =
      clidbGetViews (serveState true engineNoop contentNone initState
        ([.fileObj "data.csv", .queryStr "select 1", .sentinel].take 2))
  ∧ (awaitQueryLoop true engineNoop contentNone initState
      [.fileObj "data.csv", .queryStr "select 1", .sentinel]).length =
      requestsServed [.fileObj "data.csv", .queryStr "select 1", .sentinel] :=
  ⟨(c8_views_recomputed true engineNoop contentNone
      [.fileObj "data.csv", .queryStr "select 1", .sentinel] initState).1 1 (by decide),
   (c8_views_recomputed true engineNoop contentNone
      [.fileObj "data.csv", .queryStr "select 1", .sentinel] initState).2 (by decide)⟩
